import Mathlib

/-!
Formal model of the scope-structured execution engine of the `AvidaGP`
virtual CPU from `src/hardware/AvidaGPOthello.h` (Empirical).

The C++ class is embedded shallowly:

* `double` register values are modelled as `ℚ` (every operation the scope
  protocol depends on — comparisons with `0`, increment/decrement by `1`,
  exact division control flow — is exact on the values programs here use);
* the fixed arrays (`regs`, `fun_starts`, `mem`) and hash maps
  (`inputs`, `outputs`) are modelled as total functions; C++ reads of an
  absent map key return the default `0.0` (`Find(..., 0.0)`), which the
  total-function model reproduces exactly;
* `emp::vector` stacks are Lean lists with the head as the C++ `back()`;
* the mutual recursion `UpdateScope` ⇄ `ProcessInst` (a scope close
  re-dispatches an instruction, whose handler may again resolve scopes) is
  made total with a fuel parameter: at fuel 0 the engine returns the state
  unchanged.  Every concrete run in this file uses far more fuel than the
  recursion ever consumes, and the fuel-generic lemmas quantify over it.

All definitions are transcribed from the source file; line references are
given next to each one.
-/

namespace AvidaGP

/-- Scope kinds, mirroring `enum class ScopeType` consumed from `InstLib.h`
(`NONE`, `ROOT`, `BASIC`, `LOOP`, `FUNCTION`). -/
inductive ScopeType where
  | NONE
  | ROOT
  | BASIC
  | LOOP
  | FUNCTION
deriving DecidableEq

/-- `AvidaGP::Instruction` (lines 48-63): an opcode id plus three
non-negative integer arguments. -/
structure Instruction where
  id : Nat
  arg0 : Nat
  arg1 : Nat
  arg2 : Nat
deriving DecidableEq

/-- `AvidaGP::ScopeInfo` (lines 65-72): a scope-stack frame. -/
structure ScopeInfo where
  scope : Nat
  type : ScopeType
  start_pos : Nat
deriving DecidableEq

/-- `AvidaGP::RegBackup` (lines 74-81): a register backup entry. -/
structure RegBackup where
  scope : Nat
  reg_id : Nat
  value : ℚ
deriving DecidableEq

/-- `AvidaGP::CPU_SIZE` (line 37). -/
def CPU_SIZE : Nat := 16

/-- Pointwise update of a total-function map (the model of writing one
array slot or one hash-map key). -/
def updk {κ α : Type} [DecidableEq κ] (f : κ → α) (i : κ) (v : α) : κ → α :=
  fun j => if j = i then v else f j

/-- C++ `int(x)` / `(int) x` conversion of a `double`: truncation toward
zero. -/
def qToInt (q : ℚ) : Int :=
  if q < 0 then -((-q).floor) else q.floor

/-- The virtual CPU state: the data members of `class AvidaGP`
(lines 88-109).  Stacks keep the C++ `back()` at the list head. -/
structure CPUState where
  genome : List Instruction
  regs : Nat → ℚ
  inputs : Int → ℚ
  outputs : Int → ℚ
  mem : Nat → Int → ℚ
  fun_starts : Nat → Int
  inst_ptr : Nat
  scope_stack : List ScopeInfo
  reg_stack : List RegBackup
  call_stack : List Nat
  board : Nat → ℚ
  errors : Nat
  traits : Nat → ℚ

/-- The root scope frame pushed by the constructor (line 189):
`ScopeInfo(0, ScopeType::ROOT, 0)`. -/
def rootFrame : ScopeInfo := ⟨0, ScopeType.ROOT, 0⟩

/-- The C++ default-constructed `ScopeInfo` (line 70): scope 0, `BASIC`,
position 0.  Used only as the (unreachable) default for reads the C++
code never performs on an empty stack. -/
def defaultScopeInfo : ScopeInfo := ⟨0, ScopeType.BASIC, 0⟩

/-- Default instruction for (unreachable) out-of-range genome reads; C++
`vector::operator[]` out of range is undefined behaviour. -/
def defaultInst : Instruction := ⟨0, 0, 0, 0⟩

/-- `AvidaGP::CurScope` (line 250): `scope_stack.back().scope`. -/
def CurScope (s : CPUState) : Nat := (s.scope_stack.headD rootFrame).scope

/-- `AvidaGP::CurScopeType` (line 251): `scope_stack.back().type`. -/
def CurScopeType (s : CPUState) : ScopeType := (s.scope_stack.headD rootFrame).type

/-- The restore loop of `AvidaGP::ExitScope` (lines 117-120): pop backups
while the top entry's scope equals the current scope, writing each saved
value back to its register; return the remaining backup stack and the
updated register file. -/
def restoreScope : List RegBackup → (Nat → ℚ) → Nat → List RegBackup × (Nat → ℚ)
  | [], regs, _ => ([], regs)
  | b :: rest, regs, cur =>
    if b.scope = cur then restoreScope rest (updk regs b.reg_id b.value) cur
    else (b :: rest, regs)

/-- `AvidaGP::ExitScope` (lines 112-124): restore this scope's backups,
then pop the innermost frame. -/
def ExitScope (s : CPUState) : CPUState :=
  let p := restoreScope s.reg_stack s.regs (CurScope s)
  { s with reg_stack := p.1, regs := p.2, scope_stack := s.scope_stack.tail }

/-- Scope table of `DefaultInstLib` (lines 786-825), keyed by the
registration order that fixes instruction ids: `If`(12) and `Scope`(16)
are `BASIC`, `While`(13) and `Countdown`(14) are `LOOP`, `Define`(17) is
`FUNCTION`; everything else is `NONE`. -/
def scopeTypeOf (id : Nat) : ScopeType :=
  match id with
  | 12 => ScopeType.BASIC
  | 13 => ScopeType.LOOP
  | 14 => ScopeType.LOOP
  | 16 => ScopeType.BASIC
  | 17 => ScopeType.FUNCTION
  | _ => ScopeType.NONE

/-- Scope-argument index of `DefaultInstLib`: argument 1 for `If`,
`While`, `Countdown`, `Define`; argument 0 for `Scope`.  (Unused when the
scope type is `NONE`.) -/
def scopeArgOf (id : Nat) : Nat :=
  match id with
  | 16 => 0
  | _ => 1

/-- Read argument number `n` of an instruction (`inst.args[n]`). -/
def argOfIdx (inst : Instruction) : Nat → Nat
  | 0 => inst.arg0
  | 1 => inst.arg1
  | _ => inst.arg2

/-- `AvidaGP::InstScope` (lines 676-679): the scope a given instruction
sets, or 0 if it sets no scope; scope arguments are stored one higher
than the raw argument. -/
def InstScope (inst : Instruction) : Nat :=
  if scopeTypeOf inst.id = ScopeType.NONE then 0
  else argOfIdx inst (scopeArgOf inst.id) + 1

/-- The scan loop of `AvidaGP::BypassScope` (lines 172-181): advance the
pointer while the next instruction exists and does not open a scope that
is non-zero and at most `scope`; on such an instruction back up one
position and stop.  The fuel is instantiated with the genome length,
which always exceeds the number of iterations. -/
def bypassLoop (g : List Instruction) (scope : Nat) : Nat → Nat → Nat
  | 0, ip => ip
  | fuel + 1, ip =>
    if ip + 1 < g.length then
      let ts := InstScope (g.getD (ip + 1) defaultInst)
      if ts ≠ 0 ∧ ts ≤ scope then ip
      else bypassLoop g scope fuel (ip + 1)
    else ip

/-- `AvidaGP::BypassScope` (lines 167-182): if the break is relevant for
the current scope, exit the innermost frame and scan forward to the end
of the bypassed scope. -/
def BypassScope (s : CPUState) (scope : Nat) : CPUState :=
  let sc := scope + 1
  if CurScope s < sc then s
  else
    let s1 := ExitScope s
    { s1 with inst_ptr := bypassLoop s1.genome sc s1.genome.length s1.inst_ptr }

/-- Iterated `ExitScope` (the `while (scope_stack.size() > 1) ExitScope()`
loop of `ResetIP`, line 227, runs it exactly `size - 1` times). -/
def exitNScopes : Nat → CPUState → CPUState
  | 0, s => s
  | n + 1, s => exitNScopes n (ExitScope s)

/-- The drain loop of `ResetIP` (lines 229-232): restore every remaining
backup, head (most recent) first. -/
def restoreAll : List RegBackup → (Nat → ℚ) → Nat → ℚ
  | [], regs => regs
  | b :: rest, regs => restoreAll rest (updk regs b.reg_id b.value)

/-- `AvidaGP::ResetIP` (lines 225-234): zero the pointer, forcibly exit
every scope except root, restore every remaining backup, clear the call
stack. -/
def ResetIP (s : CPUState) : CPUState :=
  let s1 : CPUState := { s with inst_ptr := 0 }
  let s2 := exitNScopes (s1.scope_stack.length - 1) s1
  { s2 with regs := restoreAll s2.reg_stack s2.regs
          , reg_stack := []
          , call_stack := [] }

/-! ## Board helpers (lines 266-395)

The Othello-board queries.  Each C++ `while` loop moves its cursor by a
fixed stride through the 64-cell board, so it runs at most 64 iterations;
the loops are transcribed with fuel 64, and the fuel-exhausted branch
returns the loop's fall-through value `0`. -/

/-- `PLAYER` (line 41). -/
def PLAYER : ℚ := 1

/-- `OPPONENT` (line 42). -/
def OPPONENT : ℚ := -1

/-- Loop of `GetValidAbove` (lines 274-282): walk up by 8. -/
def vaLoop (board : Nat → ℚ) : Nat → Int → ℚ
  | 0, _ => 0
  | fuel + 1, square =>
    if 0 ≤ square then
      if board square.toNat = 0 then 0
      else if board square.toNat = PLAYER then
        (if board (square + 8).toNat = OPPONENT then 1 else 0)
      else vaLoop board fuel (square - 8)
    else 0

/-- `AvidaGP::GetValidAbove` (lines 269-284); `pos` is the C++ `size_t`
value (the `(size_t)(int)double` conversion happens at the call site). -/
def GetValidAbove (board : Nat → ℚ) (pos : Nat) : ℚ :=
  if 63 < pos then 0
  else if board pos ≠ 0 then 0
  else vaLoop board 64 ((pos : Int) - 8)

/-- Loop of `GetValidBelow` (lines 289-297): walk down by 8. -/
def vbLoop (board : Nat → ℚ) : Nat → Int → ℚ
  | 0, _ => 0
  | fuel + 1, square =>
    if square < 64 then
      if board square.toNat = 0 then 0
      else if board square.toNat = PLAYER then
        (if board (square - 8).toNat = OPPONENT then 1 else 0)
      else vbLoop board fuel (square + 8)
    else 0

/-- `AvidaGP::GetValidBelow` (lines 285-299). -/
def GetValidBelow (board : Nat → ℚ) (pos : Nat) : ℚ :=
  if 63 < pos then 0
  else if board pos ≠ 0 then 0
  else vbLoop board 64 ((pos : Int) + 8)

/-- Loop of `GetValidLeft` (lines 304-312): step left by 1 until the left
edge. -/
def vlLoop (board : Nat → ℚ) : Nat → Int → ℚ
  | 0, _ => 0
  | fuel + 1, square =>
    if square % 8 ≠ 0 then
      let sq := square - 1
      if board sq.toNat = 0 then 0
      else if board sq.toNat = PLAYER then
        (if board (sq + 1).toNat = OPPONENT then 1 else 0)
      else vlLoop board fuel sq
    else 0

/-- `AvidaGP::GetValidLeft` (lines 300-314). -/
def GetValidLeft (board : Nat → ℚ) (pos : Nat) : ℚ :=
  if 63 < pos then 0
  else if board pos ≠ 0 then 0
  else vlLoop board 64 (pos : Int)

/-- Loop of `GetValidRight` (lines 320-328): step right by 1 until the
right edge. -/
def vrLoop (board : Nat → ℚ) : Nat → Int → ℚ
  | 0, _ => 0
  | fuel + 1, square =>
    if square % 8 ≠ 7 then
      let sq := square + 1
      if board sq.toNat = 0 then 0
      else if board sq.toNat = PLAYER then
        (if board (sq - 1).toNat = OPPONENT then 1 else 0)
      else vrLoop board fuel sq
    else 0

/-- `AvidaGP::GetValidRight` (lines 315-330). -/
def GetValidRight (board : Nat → ℚ) (pos : Nat) : ℚ :=
  if 63 < pos then 0
  else if board pos ≠ 0 then 0
  else vrLoop board 64 (pos : Int)

/-- Loop of `GetValidUL` (lines 335-344): step up-left by 9. -/
def vulLoop (board : Nat → ℚ) : Nat → Int → ℚ
  | 0, _ => 0
  | fuel + 1, square =>
    if square % 8 ≠ 0 ∧ 7 < square then
      let sq := square - 9
      if board sq.toNat = 0 then 0
      else if board sq.toNat = PLAYER then
        (if board (sq + 9).toNat = OPPONENT then 1 else 0)
      else vulLoop board fuel sq
    else 0

/-- `AvidaGP::GetValidUL` (lines 331-346). -/
def GetValidUL (board : Nat → ℚ) (pos : Nat) : ℚ :=
  if 63 < pos then 0
  else if board pos ≠ 0 then 0
  else vulLoop board 64 (pos : Int)

/-- Loop of `GetValidUR` (lines 351-360): step up-right by 7. -/
def vurLoop (board : Nat → ℚ) : Nat → Int → ℚ
  | 0, _ => 0
  | fuel + 1, square =>
    if square % 8 ≠ 7 ∧ 7 < square then
      let sq := square - 7
      if board sq.toNat = 0 then 0
      else if board sq.toNat = PLAYER then
        (if board (sq + 7).toNat = OPPONENT then 1 else 0)
      else vurLoop board fuel sq
    else 0

/-- `AvidaGP::GetValidUR` (lines 347-362). -/
def GetValidUR (board : Nat → ℚ) (pos : Nat) : ℚ :=
  if 63 < pos then 0
  else if board pos ≠ 0 then 0
  else vurLoop board 64 (pos : Int)

/-- Loop of `GetValidLL` (lines 368-377): step down-left by 7. -/
def vllLoop (board : Nat → ℚ) : Nat → Int → ℚ
  | 0, _ => 0
  | fuel + 1, square =>
    if square % 8 ≠ 0 ∧ square < 56 then
      let sq := square + 7
      if board sq.toNat = 0 then 0
      else if board sq.toNat = PLAYER then
        (if board (sq - 7).toNat = OPPONENT then 1 else 0)
      else vllLoop board fuel sq
    else 0

/-- `AvidaGP::GetValidLL` (lines 363-379). -/
def GetValidLL (board : Nat → ℚ) (pos : Nat) : ℚ :=
  if 63 < pos then 0
  else if board pos ≠ 0 then 0
  else vllLoop board 64 (pos : Int)

/-- Loop of `GetValidLR` (lines 384-393): step down-right by 9. -/
def vlrLoop (board : Nat → ℚ) : Nat → Int → ℚ
  | 0, _ => 0
  | fuel + 1, square =>
    if square % 8 ≠ 7 ∧ square < 56 then
      let sq := square + 9
      if board sq.toNat = 0 then 0
      else if board sq.toNat = PLAYER then
        (if board (sq - 9).toNat = OPPONENT then 1 else 0)
      else vlrLoop board fuel sq
    else 0

/-- `AvidaGP::GetValidLR` (lines 380-395). -/
def GetValidLR (board : Nat → ℚ) (pos : Nat) : ℚ :=
  if 63 < pos then 0
  else if board pos ≠ 0 then 0
  else vlrLoop board 64 (pos : Int)

/-- C++ `(size_t) x` of a signed value: reduction modulo `2^64`. -/
def toSizeT (x : Int) : Nat := (x.emod (2 ^ 64)).toNat

/-! ## Simple instruction handlers (lines 513-535, 580-671)

Handlers that never call back into the scope machinery; each is the body
of the corresponding `static void Inst_...` function. -/

/-- `Inst_Inc` (line 513). -/
def Inst_Inc (s : CPUState) (i : Instruction) : CPUState :=
  { s with regs := updk s.regs i.arg0 (s.regs i.arg0 + 1) }

/-- `Inst_Dec` (line 514). -/
def Inst_Dec (s : CPUState) (i : Instruction) : CPUState :=
  { s with regs := updk s.regs i.arg0 (s.regs i.arg0 - 1) }

/-- `Inst_Not` (line 515). -/
def Inst_Not (s : CPUState) (i : Instruction) : CPUState :=
  { s with regs := updk s.regs i.arg0 (if s.regs i.arg0 = 0 then 1 else 0) }

/-- `Inst_SetReg` (line 516). -/
def Inst_SetReg (s : CPUState) (i : Instruction) : CPUState :=
  { s with regs := updk s.regs i.arg0 (i.arg1 : ℚ) }

/-- `Inst_Add` (line 517). -/
def Inst_Add (s : CPUState) (i : Instruction) : CPUState :=
  { s with regs := updk s.regs i.arg2 (s.regs i.arg0 + s.regs i.arg1) }

/-- `Inst_Sub` (line 518). -/
def Inst_Sub (s : CPUState) (i : Instruction) : CPUState :=
  { s with regs := updk s.regs i.arg2 (s.regs i.arg0 - s.regs i.arg1) }

/-- `Inst_Mult` (line 519). -/
def Inst_Mult (s : CPUState) (i : Instruction) : CPUState :=
  { s with regs := updk s.regs i.arg2 (s.regs i.arg0 * s.regs i.arg1) }

/-- `Inst_Div` (lines 521-525): division by zero increments the error
counter and leaves everything else (the destination included) unchanged. -/
def Inst_Div (s : CPUState) (i : Instruction) : CPUState :=
  let denom := s.regs i.arg1
  if denom = 0 then { s with errors := s.errors + 1 }
  else { s with regs := updk s.regs i.arg2 (s.regs i.arg0 / denom) }

/-- `Inst_Mod` (lines 527-531): transcription of the source body, which
divides (it does not take a remainder). -/
def Inst_Mod (s : CPUState) (i : Instruction) : CPUState :=
  let base := s.regs i.arg1
  if base = 0 then { s with errors := s.errors + 1 }
  else { s with regs := updk s.regs i.arg2 (s.regs i.arg0 / base) }

/-- `Inst_TestEqu` (line 533). -/
def Inst_TestEqu (s : CPUState) (i : Instruction) : CPUState :=
  { s with regs := updk s.regs i.arg2 (if s.regs i.arg0 = s.regs i.arg1 then 1 else 0) }

/-- `Inst_TestNEqu` (line 534). -/
def Inst_TestNEqu (s : CPUState) (i : Instruction) : CPUState :=
  { s with regs := updk s.regs i.arg2 (if s.regs i.arg0 = s.regs i.arg1 then 0 else 1) }

/-- `Inst_TestLess` (line 535). -/
def Inst_TestLess (s : CPUState) (i : Instruction) : CPUState :=
  { s with regs := updk s.regs i.arg2 (if s.regs i.arg0 < s.regs i.arg1 then 1 else 0) }

/-- `Inst_Break` (line 555). -/
def Inst_Break (s : CPUState) (i : Instruction) : CPUState :=
  BypassScope s i.arg0

/-- `Inst_Input` (lines 580-584). -/
def Inst_Input (s : CPUState) (i : Instruction) : CPUState :=
  { s with regs := updk s.regs i.arg1 (s.inputs (qToInt (s.regs i.arg0))) }

/-- `Inst_Output` (lines 586-591). -/
def Inst_Output (s : CPUState) (i : Instruction) : CPUState :=
  { s with outputs := updk s.outputs (qToInt (s.regs i.arg1)) (s.regs i.arg0) }

/-- `Inst_CopyVal` (line 593). -/
def Inst_CopyVal (s : CPUState) (i : Instruction) : CPUState :=
  { s with regs := updk s.regs i.arg1 (s.regs i.arg0) }

/-- `Inst_ScopeReg` (lines 595-597): push a backup of the argument
register, owned by the current scope. -/
def Inst_ScopeReg (s : CPUState) (i : Instruction) : CPUState :=
  { s with reg_stack := ⟨CurScope s, i.arg0, s.regs i.arg0⟩ :: s.reg_stack }

/-- `Inst_SetBoard` (lines 599-601) via `SetBoard` (line 266): copy
inputs 0..63 onto the board. -/
def Inst_SetBoard (s : CPUState) (_i : Instruction) : CPUState :=
  { s with board := fun p => if p < 64 then s.inputs (Int.ofNat p) else s.board p }

/-- `Inst_GetSquareCurr` (lines 602-605) via `GetSquareCurr` (line 267):
`board[pos % 64]` where `pos` is the `(size_t)(int)` conversion of the
register (so `x emod 64` since `64` divides `2^64`). -/
def Inst_GetSquareCurr (s : CPUState) (i : Instruction) : CPUState :=
  { s with regs := updk s.regs i.arg1 (s.board ((qToInt (s.regs i.arg0)).emod 64).toNat) }

/-- `Inst_EndTurn` (lines 606-608) via `EndTurn` (line 441):
`SetTrait(100, 1)`. -/
def Inst_EndTurn (s : CPUState) (_i : Instruction) : CPUState :=
  { s with traits := updk s.traits 100 1 }

/-- `Inst_GetValidAbove` (lines 610-614). -/
def Inst_GetValidAbove (s : CPUState) (i : Instruction) : CPUState :=
  { s with regs := updk s.regs i.arg1 (GetValidAbove s.board (toSizeT (qToInt (s.regs i.arg0)))) }

/-- `Inst_GetValidBelow` (lines 616-621). -/
def Inst_GetValidBelow (s : CPUState) (i : Instruction) : CPUState :=
  { s with regs := updk s.regs i.arg1 (GetValidBelow s.board (toSizeT (qToInt (s.regs i.arg0)))) }

/-- `Inst_GetValidLeft` (lines 622-626). -/
def Inst_GetValidLeft (s : CPUState) (i : Instruction) : CPUState :=
  { s with regs := updk s.regs i.arg1 (GetValidLeft s.board (toSizeT (qToInt (s.regs i.arg0)))) }

/-- `Inst_GetValidRight` (lines 627-631). -/
def Inst_GetValidRight (s : CPUState) (i : Instruction) : CPUState :=
  { s with regs := updk s.regs i.arg1 (GetValidRight s.board (toSizeT (qToInt (s.regs i.arg0)))) }

/-- `Inst_GetValidUL` (lines 632-636). -/
def Inst_GetValidUL (s : CPUState) (i : Instruction) : CPUState :=
  { s with regs := updk s.regs i.arg1 (GetValidUL s.board (toSizeT (qToInt (s.regs i.arg0)))) }

/-- `Inst_GetValidUR` (lines 637-641). -/
def Inst_GetValidUR (s : CPUState) (i : Instruction) : CPUState :=
  { s with regs := updk s.regs i.arg1 (GetValidUR s.board (toSizeT (qToInt (s.regs i.arg0)))) }

/-- `Inst_GetValidLL` (lines 642-646). -/
def Inst_GetValidLL (s : CPUState) (i : Instruction) : CPUState :=
  { s with regs := updk s.regs i.arg1 (GetValidLL s.board (toSizeT (qToInt (s.regs i.arg0)))) }

/-- `Inst_GetValidLR` (lines 647-651). -/
def Inst_GetValidLR (s : CPUState) (i : Instruction) : CPUState :=
  { s with regs := updk s.regs i.arg1 (GetValidLR s.board (toSizeT (qToInt (s.regs i.arg0)))) }

/-- `Inst_GetMem` (lines 653-657) via `GetMem` (lines 259-264): an absent
key reads as `0`, which the total-function model returns directly. -/
def Inst_GetMem (s : CPUState) (i : Instruction) : CPUState :=
  { s with regs := updk s.regs i.arg2 (s.mem i.arg0 (qToInt (s.regs i.arg1))) }

/-- `Inst_SetMem` (lines 659-662) via `SetMem` (line 409). -/
def Inst_SetMem (s : CPUState) (i : Instruction) : CPUState :=
  { s with mem := updk s.mem i.arg0 (updk (s.mem i.arg0) (qToInt (s.regs i.arg1)) (s.regs i.arg2)) }

/-- `Inst_CopyMem` (lines 664-667) via `CopyMem` (line 410): copy block
`arg0` into block `arg1`. -/
def Inst_CopyMem (s : CPUState) (i : Instruction) : CPUState :=
  { s with mem := updk s.mem i.arg1 (s.mem i.arg0) }

/-- `Inst_ShiftMem` (lines 669-671) via `ShiftMem` (lines 411-418): every
stored entry moves up by the shift amount; with absent keys reading as
`0` this is precomposition with the inverse shift.  (The C++
`double → size_t` conversion of the shift register is undefined for
negative values; the model truncates toward zero.) -/
def Inst_ShiftMem (s : CPUState) (i : Instruction) : CPUState :=
  let shift := qToInt (s.regs i.arg1)
  { s with mem := updk s.mem i.arg0 (fun j => s.mem i.arg0 (j - shift)) }

/-! ## The fueled engine

`UpdateScope` (lines 129-163) and `ProcessInst` (line 468, dispatching
through `InstLib::ProcessInst`) are mutually recursive: closing a `LOOP`
or `FUNCTION` scope re-dispatches the instruction now under the pointer.
`engine fuel` builds the pair of functions by recursion on fuel, each
level calling only the previous level, so the model is structurally
recursive and computes by `rfl`/`decide`.  Exhausted fuel leaves the
state unchanged (and reports "scope not entered"); every statement below
either quantifies over the fuel or supplies far more than any run uses. -/

/-- The pair of engine entry points at one fuel level. -/
structure Engines where
  pinst : CPUState → Instruction → CPUState
  uscope : CPUState → Nat → ScopeType → CPUState × Bool

/-- `Inst_If` (lines 537-540): enter/resolve the scope; if that reports
the previous scope unfinished, stop; otherwise bypass on a false test. -/
def Inst_If (E : Engines) (s : CPUState) (i : Instruction) : CPUState :=
  match E.uscope s i.arg1 ScopeType.BASIC with
  | (s1, false) => s1
  | (s1, true) => if s1.regs i.arg0 = 0 then BypassScope s1 i.arg1 else s1

/-- `Inst_While` (lines 542-546). -/
def Inst_While (E : Engines) (s : CPUState) (i : Instruction) : CPUState :=
  match E.uscope s i.arg1 ScopeType.LOOP with
  | (s1, false) => s1
  | (s1, true) => if s1.regs i.arg0 = 0 then BypassScope s1 i.arg1 else s1

/-- `Inst_Countdown` (lines 548-553): like `While`, but a passing test
also decrements the test register. -/
def Inst_Countdown (E : Engines) (s : CPUState) (i : Instruction) : CPUState :=
  match E.uscope s i.arg1 ScopeType.LOOP with
  | (s1, false) => s1
  | (s1, true) =>
    if s1.regs i.arg0 = 0 then BypassScope s1 i.arg1
    else { s1 with regs := updk s1.regs i.arg0 (s1.regs i.arg0 - 1) }

/-- `Inst_Scope` (line 556): `UpdateScope(args[0])`, result ignored. -/
def Inst_Scope (E : Engines) (s : CPUState) (i : Instruction) : CPUState :=
  (E.uscope s i.arg0 ScopeType.BASIC).1

/-- `Inst_Define` (lines 558-562): enter the scope (with the default
`BASIC` kind — `UpdateScope`'s default argument), record the current
position as the function's start, then bypass the body. -/
def Inst_Define (E : Engines) (s : CPUState) (i : Instruction) : CPUState :=
  match E.uscope s i.arg1 ScopeType.BASIC with
  | (s1, false) => s1
  | (s1, true) =>
    BypassScope { s1 with fun_starts := updk s1.fun_starts i.arg0 (Int.ofNat s1.inst_ptr) } i.arg1

/-- `Inst_Call` (lines 564-575): validate the recorded entry (range and
`FUNCTION` scope type), re-enter the function's scope, and on success
push the return position and jump past the `Define` instruction.  The
`(size_t)` cast of `fun_starts` maps the unset value `-1` (and any
negative) far out of range. -/
def Inst_Call (E : Engines) (s : CPUState) (i : Instruction) : CPUState :=
  let def_pos := toSizeT (s.fun_starts i.arg0)
  if s.genome.length ≤ def_pos
      ∨ scopeTypeOf (s.genome.getD def_pos defaultInst).id ≠ ScopeType.FUNCTION then s
  else
    let fun_scope := (s.genome.getD def_pos defaultInst).arg1
    match E.uscope s fun_scope ScopeType.FUNCTION with
    | (s1, false) => s1
    | (s1, true) =>
      { s1 with call_stack := (s1.inst_ptr + 1) :: s1.call_stack, inst_ptr := def_pos + 1 }

/-- The dispatch table of `DefaultInstLib` (lines 786-825): instruction
ids in registration order.  An id outside the library is out-of-range in
C++ (undefined); the model leaves the state unchanged. -/
def dispatch (E : Engines) (s : CPUState) (inst : Instruction) : CPUState :=
  match inst.id with
  | 0 => Inst_Inc s inst
  | 1 => Inst_Dec s inst
  | 2 => Inst_Not s inst
  | 3 => Inst_SetReg s inst
  | 4 => Inst_Add s inst
  | 5 => Inst_Sub s inst
  | 6 => Inst_Mult s inst
  | 7 => Inst_Div s inst
  | 8 => Inst_Mod s inst
  | 9 => Inst_TestEqu s inst
  | 10 => Inst_TestNEqu s inst
  | 11 => Inst_TestLess s inst
  | 12 => Inst_If E s inst
  | 13 => Inst_While E s inst
  | 14 => Inst_Countdown E s inst
  | 15 => Inst_Break s inst
  | 16 => Inst_Scope E s inst
  | 17 => Inst_Define E s inst
  | 18 => Inst_Call E s inst
  | 19 => Inst_SetMem s inst
  | 20 => Inst_GetMem s inst
  | 21 => Inst_CopyMem s inst
  | 22 => Inst_ShiftMem s inst
  | 23 => Inst_SetBoard s inst
  | 24 => Inst_EndTurn s inst
  | 25 => Inst_GetSquareCurr s inst
  | 26 => Inst_GetValidAbove s inst
  | 27 => Inst_GetValidBelow s inst
  | 28 => Inst_GetValidLeft s inst
  | 29 => Inst_GetValidRight s inst
  | 30 => Inst_GetValidUL s inst
  | 31 => Inst_GetValidUR s inst
  | 32 => Inst_GetValidLL s inst
  | 33 => Inst_GetValidLR s inst
  | 34 => Inst_Input s inst
  | 35 => Inst_Output s inst
  | 36 => Inst_CopyVal s inst
  | 37 => Inst_ScopeReg s inst
  | _ => s

/-- The body of `AvidaGP::UpdateScope` (lines 129-163).  Note two
transcription-critical details of the source: scopes are stored one
higher than the argument (`new_scope++`, line 131), and the recursive
call on line 162 passes the *already incremented* value, which is then
incremented again. -/
def updateScopeBody (E : Engines) (s : CPUState) (new_scope : Nat) (ty : ScopeType) :
    CPUState × Bool :=
  let cur_scope := CurScope s
  let ns := new_scope + 1
  if cur_scope < ns then
    ({ s with scope_stack := ⟨ns, ty, s.inst_ptr⟩ :: s.scope_stack }, true)
  else if CurScopeType s = ScopeType.LOOP then
    let s1 : CPUState := { s with inst_ptr := (s.scope_stack.headD rootFrame).start_pos }
    let s2 := ExitScope s1
    (E.pinst s2 (s2.genome.getD s2.inst_ptr defaultInst), false)
  else if CurScopeType s = ScopeType.FUNCTION then
    let s1 : CPUState := { s with inst_ptr := s.call_stack.headD 0 }
    let s2 :=
      if s1.genome.length ≤ s1.inst_ptr then ResetIP s1
      else ExitScope { s1 with call_stack := s1.call_stack.tail }
    (E.pinst s2 (s2.genome.getD s2.inst_ptr defaultInst), false)
  else
    E.uscope (ExitScope s) ns ty

/-- The engine at each fuel level: level `n+1` dispatches and resolves
scopes, recursing only into level `n`. -/
def engine : Nat → Engines
  | 0 => { pinst := fun s _ => s, uscope := fun s _ _ => (s, false) }
  | n + 1 => { pinst := dispatch (engine n), uscope := updateScopeBody (engine n) }

/-- `AvidaGP::ProcessInst` (line 468): dispatch one instruction. -/
def ProcessInst (fuel : Nat) (s : CPUState) (inst : Instruction) : CPUState :=
  (engine fuel).pinst s inst

/-- `AvidaGP::UpdateScope` (lines 129-163). -/
def UpdateScope (fuel : Nat) (s : CPUState) (new_scope : Nat) (ty : ScopeType) :
    CPUState × Bool :=
  (engine fuel).uscope s new_scope ty

/-- `AvidaGP::SingleProcess` (lines 474-478): reset if the pointer ran
off the genome, dispatch the instruction under the pointer, then advance
the pointer. -/
def SingleProcess (fuel : Nat) (s : CPUState) : CPUState :=
  let s1 := if s.genome.length ≤ s.inst_ptr then ResetIP s else s
  let s2 := ProcessInst fuel s1 (s1.genome.getD s1.inst_ptr defaultInst)
  { s2 with inst_ptr := s2.inst_ptr + 1 }

/-- `AvidaGP::Process` (lines 481-486): up to `n` single steps, stopping
early once trait 100 (the halt trait) is 1. -/
def Process (fuel : Nat) : Nat → CPUState → CPUState
  | 0, s => s
  | n + 1, s => if s.traits 100 = 1 then s else Process fuel n (SingleProcess fuel s)

/-- `n` unconditional `SingleProcess` calls (the caller loop used by the
reachability scenarios). -/
def runSteps (fuel : Nat) : Nat → CPUState → CPUState
  | 0, s => s
  | n + 1, s => runSteps fuel n (SingleProcess fuel s)

/-- `AvidaGP::PredictNextInst` (lines 721-750), transcribed branch by
branch. -/
def PredictNextInst (s : CPUState) : Nat :=
  let new_scope : Nat :=
    if s.genome.length ≤ s.inst_ptr then 0
    else
      let inst_scope := InstScope (s.genome.getD s.inst_ptr defaultInst)
      if inst_scope ≠ 0 then inst_scope else CPU_SIZE + 1
  if CPU_SIZE < new_scope ∨ CurScope s < new_scope then s.inst_ptr
  else if CurScopeType s = ScopeType.LOOP then (s.scope_stack.headD rootFrame).start_pos
  else if CurScopeType s = ScopeType.FUNCTION then
    let next_pos := s.call_stack.headD 0
    if s.genome.length ≤ next_pos then 0 else next_pos
  else if s.genome.length ≤ s.inst_ptr then 0
  else s.inst_ptr

/-- The CPU right after construction with an empty genome: the
constructor (lines 185-191) pushes the root frame and calls `Reset`,
which runs `ResetHardware` (lines 207-222): registers hold their own
index, everything else is cleared, trait 100 is zeroed. -/
def initialCPU : CPUState :=
  { genome := []
  , regs := fun i => (i : ℚ)
  , inputs := fun _ => 0
  , outputs := fun _ => 0
  , mem := fun _ _ => 0
  , fun_starts := fun _ => -1
  , inst_ptr := 0
  , scope_stack := [rootFrame]
  , reg_stack := []
  , call_stack := []
  , board := fun _ => 0
  , errors := 0
  , traits := fun _ => 0 }

/-- A freshly constructed CPU loaded with genome `g` (`SetGenome`,
line 401). -/
def initState (g : List Instruction) : CPUState :=
  { initialCPU with genome := g }

/-! ## Concrete programs and states used by the verification scenarios -/

/-- Sixteen `Scope` instructions with strictly increasing scope
arguments `0..15`; each one pushes a new frame. -/
def c1Genome : List Instruction :=
  [⟨16, 0, 0, 0⟩, ⟨16, 1, 0, 0⟩, ⟨16, 2, 0, 0⟩, ⟨16, 3, 0, 0⟩,
   ⟨16, 4, 0, 0⟩, ⟨16, 5, 0, 0⟩, ⟨16, 6, 0, 0⟩, ⟨16, 7, 0, 0⟩,
   ⟨16, 8, 0, 0⟩, ⟨16, 9, 0, 0⟩, ⟨16, 10, 0, 0⟩, ⟨16, 11, 0, 0⟩,
   ⟨16, 12, 0, 0⟩, ⟨16, 13, 0, 0⟩, ⟨16, 14, 0, 0⟩, ⟨16, 15, 0, 0⟩]

/-- The countdown-loop program: `Countdown(test reg 0, scope 0)`;
`Inc(reg 1)` as the loop body; `Scope(0)` as the first instruction after
the loop (it closes the countdown's scope when reached inside it). -/
def cdGenome : List Instruction := [⟨14, 0, 0, 0⟩, ⟨0, 1, 0, 0⟩, ⟨16, 0, 0, 0⟩]

/-- The loop frame the countdown pushes: scope 1, `LOOP`, opened at
position 0. -/
def cdLoopFrame : ScopeInfo := ⟨1, ScopeType.LOOP, 0⟩

/-- Countdown program about to run, with register file `g`. -/
def cdStart (g : Nat → ℚ) : CPUState := { initState cdGenome with regs := g }

/-- Countdown mid-state: inside the loop just after the countdown
instruction ran (pointer on the body), register file `g`. -/
def cdMid (g : Nat → ℚ) : CPUState :=
  { initState cdGenome with inst_ptr := 1
                          , scope_stack := [cdLoopFrame, rootFrame]
                          , regs := g }

/-- Countdown state just after the body ran (pointer on the
scope-closing instruction), register file `g`. -/
def cdBody (g : Nat → ℚ) : CPUState :=
  { initState cdGenome with inst_ptr := 2
                          , scope_stack := [cdLoopFrame, rootFrame]
                          , regs := g }

/-- The state with the fresh loop frame pushed and the pointer on the
countdown instruction (the common continuation of entering the loop). -/
def cdPush (g : Nat → ℚ) : CPUState :=
  { initState cdGenome with scope_stack := [cdLoopFrame, rootFrame], regs := g }

/-- Countdown program finished: pointer on the instruction after the
loop, only the root frame left, register file `g`. -/
def cdDone (g : Nat → ℚ) : CPUState := { initState cdGenome with inst_ptr := 2, regs := g }

/-- The countdown program's initial state with the guard register set to
`V` and every other register at its hardware-reset default. -/
def cdInit (V : Nat) : CPUState := cdStart (updk (fun i => (i : ℚ)) 0 (V : ℚ))

/-- `Inc(reg 5)` then `Countdown(test reg 2, scope 0)`: running it twice
leaves the pointer past the genome end with a live loop frame whose
`start_pos` is 1. -/
def c9Genome : List Instruction := [⟨0, 5, 0, 0⟩, ⟨14, 2, 0, 0⟩]

/-- The state after two steps of `c9Genome`. -/
def c9State : CPUState := runSteps 64 2 (initState c9Genome)

/-- `Define(fun 0, scope 0)` then `Call(fun 0)`. -/
def c8Genome : List Instruction := [⟨17, 0, 0, 0⟩, ⟨18, 0, 0, 0⟩]

/-- A state about to execute the `Call` of `c8Genome` from inside a live
loop scope of the same depth as the function's scope: the call's scope
re-entry resolves the loop instead and reports failure. -/
def c8CexState : CPUState :=
  { initState c8Genome with
      scope_stack := [⟨1, ScopeType.LOOP, 0⟩, rootFrame]
      inst_ptr := 1
      fun_starts := updk (fun _ => (-1 : Int)) 0 0 }

/-- `Define(fun 0, scope 1)`; `Inc(reg 4)` as the function body;
`Scope(0)`; `Call(fun 0)`. -/
def c8GoodGenome : List Instruction :=
  [⟨17, 0, 1, 0⟩, ⟨0, 4, 0, 0⟩, ⟨16, 0, 0, 0⟩, ⟨18, 0, 0, 0⟩]

/-- A state about to execute the `Call` of `c8GoodGenome` from a basic
scope shallower than the function's scope: the scope re-entry succeeds. -/
def c8GoodState : CPUState :=
  { initState c8GoodGenome with
      inst_ptr := 3
      scope_stack := [⟨1, ScopeType.BASIC, 2⟩, rootFrame]
      fun_starts := updk (fun _ => (-1 : Int)) 0 0 }

/-- A state whose innermost frame is a basic scope of depth 1: bypassing
with any deeper target is a no-op. -/
def c4CexState : CPUState :=
  { initState [⟨0, 0, 0, 0⟩] with scope_stack := [⟨1, ScopeType.BASIC, 0⟩, rootFrame] }

/-- A state inside a basic scope of depth 2 holding one register backup,
with a scope-closing instruction at position 2: used to exercise the
bypass scan. -/
def c4WitState : CPUState :=
  { initState [⟨0, 0, 0, 0⟩, ⟨0, 0, 0, 0⟩, ⟨16, 0, 0, 0⟩, ⟨0, 0, 0, 0⟩] with
      scope_stack := [⟨2, ScopeType.BASIC, 0⟩, rootFrame]
      reg_stack := [⟨2, 0, 42⟩] }

/-- A state at the end of the countdown-loop's body (pointer on the
scope-closing instruction, loop frame live): used to exercise the
loop-back branch of `UpdateScope`. -/
def c3WitState : CPUState :=
  { initState cdGenome with inst_ptr := 2, scope_stack := [cdLoopFrame, rootFrame] }

/-- A state with the pointer past the genome end, one open scope holding
a register backup, and a pending call-stack entry: used to exercise the
automatic reset of `SingleProcess`. -/
def c5WitState : CPUState :=
  { initState [⟨0, 6, 0, 0⟩] with
      inst_ptr := 5
      scope_stack := [⟨2, ScopeType.BASIC, 0⟩, rootFrame]
      reg_stack := [⟨2, 3, 99⟩]
      call_stack := [7] }

/-! ## General lemmas -/

theorem updk_same {κ α : Type} [DecidableEq κ] (f : κ → α) (i : κ) (v : α) :
    updk f i v i = v := by
  simp [updk]

theorem updk_ne {κ α : Type} [DecidableEq κ] (f : κ → α) (i j : κ) (v : α) (h : j ≠ i) :
    updk f i v j = f j := by
  simp [updk, h]

/-- Restoring a scope's backups and then restoring everything left is
the same as restoring the whole backup stack. -/
theorem restoreAll_restoreScope (cur : Nat) :
    ∀ (l : List RegBackup) (g : Nat → ℚ),
      restoreAll (restoreScope l g cur).1 (restoreScope l g cur).2 = restoreAll l g := by
  intro l
  induction l with
  | nil => intro g; rfl
  | cons b rest ih =>
    intro g
    by_cases hb : b.scope = cur
    · show restoreAll (restoreScope (b :: rest) g cur).1 (restoreScope (b :: rest) g cur).2 = _
      rw [restoreScope, if_pos hb]
      exact ih (updk g b.reg_id b.value)
    · show restoreAll (restoreScope (b :: rest) g cur).1 (restoreScope (b :: rest) g cur).2 = _
      rw [restoreScope, if_neg hb]

/-- The restore loop never touches a register that none of the
restorable backups name. -/
theorem restoreScope_regs_ne (cur r : Nat) :
    ∀ (l : List RegBackup) (g : Nat → ℚ),
      (∀ b ∈ l, b.scope = cur → b.reg_id ≠ r) → (restoreScope l g cur).2 r = g r := by
  intro l
  induction l with
  | nil => intro g _; rfl
  | cons b rest ih =>
    intro g h
    by_cases hb : b.scope = cur
    · rw [restoreScope, if_pos hb]
      rw [ih (updk g b.reg_id b.value) (fun c hc => h c (List.mem_cons_of_mem b hc))]
      exact updk_ne g b.reg_id r b.value (Ne.symm (h b (List.mem_cons_self b rest) hb))
    · rw [restoreScope, if_neg hb]

/-! ## Claim theorems -/

set_option maxRecDepth 100000 in
/-- C1.  The spec's invariant "the scope stack has at most `N = 16`
frames" is the code's own assertion (`emp_assert(scope_stack.size() <=
CPU_SIZE)` in `ExitScope`, line 114), but nothing bounds the stack at
push time: the reachable run below — sixteen `Scope` instructions with
arguments `0..15` from a fresh CPU — grows the stack to 17 frames (root
plus scopes `1..16`), so the next `ExitScope` would trip the assertion.
The remaining parts of the invariant (at least one frame, root at the
bottom, strictly increasing scope ids) do hold on this state, as the
listed scope column shows. -/
theorem c1_scope_stack_overflow :
    (runSteps 64 16 (initState c1Genome)).scope_stack.length = 17
    ∧ List.map ScopeInfo.scope (runSteps 64 16 (initState c1Genome)).scope_stack
        = [16, 15, 14, 13, 12, 11, 10, 9, 8, 7, 6, 5, 4, 3, 2, 1, 0] := by
  exact ⟨by decide, by decide⟩

/-- C7.  Dispatching `Div` (id 7) or `Mod` (id 8) with a zero divisor
register increments the error counter and changes nothing else — in
particular the destination register `args[2]` keeps its value; with a
nonzero divisor the error counter is unchanged. -/
theorem c7_div_mod_by_zero (fuel : Nat) (s : CPUState) (a0 a1 a2 : Nat) :
    (s.regs a1 = 0 →
        ProcessInst (fuel + 1) s ⟨7, a0, a1, a2⟩ = { s with errors := s.errors + 1 }
        ∧ ProcessInst (fuel + 1) s ⟨8, a0, a1, a2⟩ = { s with errors := s.errors + 1 })
    ∧ (s.regs a1 ≠ 0 →
        (ProcessInst (fuel + 1) s ⟨7, a0, a1, a2⟩).errors = s.errors
        ∧ (ProcessInst (fuel + 1) s ⟨8, a0, a1, a2⟩).errors = s.errors) := by
  have e7 : ProcessInst (fuel + 1) s ⟨7, a0, a1, a2⟩ = Inst_Div s ⟨7, a0, a1, a2⟩ := rfl
  have e8 : ProcessInst (fuel + 1) s ⟨8, a0, a1, a2⟩ = Inst_Mod s ⟨8, a0, a1, a2⟩ := rfl
  constructor
  · intro h
    rw [e7, e8]
    simp only [Inst_Div, Inst_Mod]
    rw [if_pos h]
    exact ⟨rfl, rfl⟩
  · intro h
    rw [e7, e8]
    simp only [Inst_Div, Inst_Mod]
    rw [if_neg h]
    exact ⟨rfl, rfl⟩

/-- C7 witness: on a fresh CPU register 0 holds `0`, so `Div` with
divisor register 0 only bumps the error counter; register 1 holds `1`,
so `Div` with divisor register 1 reports no error. -/
theorem c7_div_mod_by_zero_witness :
    ((initState []).regs 0 = 0
      ∧ ProcessInst 1 (initState []) ⟨7, 3, 0, 2⟩ = { initState [] with errors := 1 })
    ∧ ((initState []).regs 1 ≠ 0
      ∧ (ProcessInst 1 (initState []) ⟨7, 3, 1, 2⟩).errors = 0) := by
  have h0 : (initState []).regs 0 = 0 := by with_unfolding_all rfl
  have h1 : (initState []).regs 1 ≠ 0 := by
    intro h
    exact one_ne_zero ((by with_unfolding_all rfl : ((1 : ℚ)) = (initState []).regs 1).trans h)
  exact ⟨⟨h0, ((c7_div_mod_by_zero 0 (initState []) 3 0 2).1 h0).1⟩,
         ⟨h1, ((c7_div_mod_by_zero 0 (initState []) 3 1 2).2 h1).1⟩⟩

/-- C10.  Dispatching `Mod` produces exactly the same state as
dispatching `Div` with the same arguments (the `Inst_Mod` body divides);
in particular with a nonzero divisor the destination receives the
quotient, not a remainder. -/
theorem c10_mod_equals_div (fuel : Nat) (s : CPUState) (a0 a1 a2 : Nat) :
    ProcessInst fuel s ⟨8, a0, a1, a2⟩ = ProcessInst fuel s ⟨7, a0, a1, a2⟩
    ∧ (s.regs a1 ≠ 0 →
        (ProcessInst (fuel + 1) s ⟨8, a0, a1, a2⟩).regs a2 = s.regs a0 / s.regs a1) := by
  constructor
  · cases fuel with
    | zero => rfl
    | succ n => rfl
  · intro h
    have e8 : ProcessInst (fuel + 1) s ⟨8, a0, a1, a2⟩ = Inst_Mod s ⟨8, a0, a1, a2⟩ := rfl
    rw [e8]
    simp only [Inst_Mod]
    rw [if_neg h]
    exact updk_same s.regs a2 _

/-- C10 witness: concrete instantiation on a fresh CPU (`regs[1] = 1`). -/
theorem c10_mod_equals_div_witness :
    ProcessInst 5 (initState []) ⟨8, 3, 1, 2⟩ = ProcessInst 5 (initState []) ⟨7, 3, 1, 2⟩
    ∧ (ProcessInst 6 (initState []) ⟨8, 3, 1, 2⟩).regs 2
        = (initState []).regs 3 / (initState []).regs 1 := by
  have h1 : (initState []).regs 1 ≠ 0 := by
    intro h
    exact one_ne_zero ((by with_unfolding_all rfl : ((1 : ℚ)) = (initState []).regs 1).trans h)
  exact ⟨(c10_mod_equals_div 5 (initState []) 3 1 2).1,
         (c10_mod_equals_div 5 (initState []) 3 1 2).2 h1⟩

/-- C4 counterexample.  The claim says `BypassScope` exits the current
innermost frame for *every* state and target depth, but the source
guard `if (CurScope() < scope) return;` (line 169) makes the call a
complete no-op whenever the target is deeper than the current scope:
here the innermost frame is a basic scope of depth 1, the target depth
is 5, and the state — scope stack included — is returned unchanged. -/
theorem c4_bypass_counterexample :
    BypassScope c4CexState 5 = c4CexState ∧ c4CexState.scope_stack.length = 2 :=
  ⟨rfl, rfl⟩

set_option maxRecDepth 10000 in
/-- C8 counterexample.  In `c8CexState` the recorded entry for slot 0 is
valid (position 0, within the 2-instruction genome, and the instruction
there opens a `FUNCTION`-kind scope), so the claim's "otherwise" branch
promises `current_pointer + 1 = 2` pushed on the call stack.  But the
call site sits inside a loop scope at the function's own depth, the
scope re-entry resolves the loop instead and reports failure, and
`Inst_Call` (line 572) returns early: the call stack stays empty and
the loop frame has been popped. -/
theorem c8_call_counterexample :
    toSizeT (c8CexState.fun_starts 0) = 0
    ∧ c8CexState.genome.length = 2
    ∧ scopeTypeOf (c8CexState.genome.getD 0 defaultInst).id = ScopeType.FUNCTION
    ∧ c8CexState.inst_ptr + 1 = 2
    ∧ (ProcessInst 64 c8CexState ⟨18, 0, 0, 0⟩).call_stack = []
    ∧ (ProcessInst 64 c8CexState ⟨18, 0, 0, 0⟩).scope_stack = [rootFrame] := by
  refine ⟨by decide, by decide, by decide, by decide, by decide, by decide⟩

set_option maxRecDepth 100000 in
/-- C9.  `PredictNextInst`'s own documentation (line 495: "Figure out
which instruction is going to actually be run next SingleProcess()")
and the claim agree, but the code checks the loop branch before the
past-end branch while `SingleProcess` resets first: after two steps of
`c9Genome` the pointer (2) is past the genome end with a live loop
frame, `PredictNextInst` answers the loop start 1, yet the next
`SingleProcess` resets the hardware and runs instruction 0 — the `Inc`
of register 5 fires (5 became 6 in step one, then 7), the pointer ends
at 1, the loop frame is gone, and the countdown's test register 2 was
not touched again. -/
theorem c9_predict_vs_reset :
    PredictNextInst c9State = 1
    ∧ c9State.inst_ptr = 2
    ∧ c9State.genome.length = 2
    ∧ CurScopeType c9State = ScopeType.LOOP
    ∧ (SingleProcess 64 c9State).regs 5 = 7
    ∧ (SingleProcess 64 c9State).regs 2 = 1
    ∧ (SingleProcess 64 c9State).inst_ptr = 1
    ∧ (SingleProcess 64 c9State).scope_stack = [rootFrame] := by
  refine ⟨by decide, by decide, by decide, by decide, ?_, ?_, by decide, by decide⟩
  · with_unfolding_all rfl
  · with_unfolding_all rfl

/-- The bypass scan stops one position before the first stopping
instruction (non-zero opened scope, at most the target) strictly after
the start, provided the fuel reaches it. -/
theorem bypassLoop_stop (g : List Instruction) (sc : Nat) :
    ∀ (f ip j : Nat), ip < j → j < g.length → j ≤ ip + f →
      (InstScope (g.getD j defaultInst) ≠ 0 ∧ InstScope (g.getD j defaultInst) ≤ sc) →
      (∀ k, ip < k → k < j →
        ¬(InstScope (g.getD k defaultInst) ≠ 0 ∧ InstScope (g.getD k defaultInst) ≤ sc)) →
      bypassLoop g sc f ip = j - 1 := by
  intro f
  induction f with
  | zero => intro ip j h1 _ h3 _ _; omega
  | succ n ih =>
    intro ip j h1 h2 h3 h4 h5
    simp only [bypassLoop]
    rw [if_pos (by omega : ip + 1 < g.length)]
    by_cases hj : ip + 1 = j
    · rw [if_pos (hj ▸ h4)]
      omega
    · rw [if_neg (h5 (ip + 1) (by omega) (by omega))]
      exact ih (ip + 1) j (by omega) h2 (by omega) h4 (fun k hk1 hk2 => h5 k (by omega) hk2)

/-- With no stopping instruction ahead, the bypass scan runs to the last
genome position (or stays put when already there). -/
theorem bypassLoop_nostop (g : List Instruction) (sc : Nat) :
    ∀ (f ip : Nat), g.length ≤ ip + f + 1 →
      (∀ k, ip < k → k < g.length →
        ¬(InstScope (g.getD k defaultInst) ≠ 0 ∧ InstScope (g.getD k defaultInst) ≤ sc)) →
      bypassLoop g sc f ip = max ip (g.length - 1) := by
  intro f
  induction f with
  | zero =>
    intro ip h1 _
    show ip = max ip (g.length - 1)
    rw [Nat.max_eq_left (by omega)]
  | succ n ih =>
    intro ip h1 h2
    simp only [bypassLoop]
    by_cases hlt : ip + 1 < g.length
    · rw [if_pos hlt, if_neg (h2 (ip + 1) (by omega) hlt)]
      rw [ih (ip + 1) (by omega) (fun k hk1 hk2 => h2 k (by omega) hk2)]
      rw [Nat.max_eq_right (by omega), Nat.max_eq_right (by omega)]
    · rw [if_neg hlt, Nat.max_eq_left (by omega)]

/-- C4 (amended).  Whenever the bypass is relevant — the current scope id
is at least `target_depth + 1` — `BypassScope` exits exactly the current
innermost frame, no matter how much shallower the numeric target is, and
then scans forward: the pointer stops one position before the first
strictly-later instruction whose opened scope depth is non-zero and at
most `target_depth + 1`, and with no such instruction it runs to the last
genome position.  (When the current scope is shallower than
`target_depth + 1`, the call is a no-op — see the counterexample.) -/
theorem c4_bypass_amended (s : CPUState) (t : Nat) (h : t + 1 ≤ CurScope s) :
    (BypassScope s t).scope_stack = s.scope_stack.tail
    ∧ (BypassScope s t).regs = (ExitScope s).regs
    ∧ (BypassScope s t).reg_stack = (ExitScope s).reg_stack
    ∧ (BypassScope s t).genome = s.genome
    ∧ (BypassScope s t).call_stack = s.call_stack
    ∧ (BypassScope s t).errors = s.errors
    ∧ (∀ j, s.inst_ptr < j → j < s.genome.length →
        (InstScope (s.genome.getD j defaultInst) ≠ 0
          ∧ InstScope (s.genome.getD j defaultInst) ≤ t + 1) →
        (∀ k, s.inst_ptr < k → k < j →
          ¬(InstScope (s.genome.getD k defaultInst) ≠ 0
            ∧ InstScope (s.genome.getD k defaultInst) ≤ t + 1)) →
        (BypassScope s t).inst_ptr = j - 1)
    ∧ ((∀ k, s.inst_ptr < k → k < s.genome.length →
          ¬(InstScope (s.genome.getD k defaultInst) ≠ 0
            ∧ InstScope (s.genome.getD k defaultInst) ≤ t + 1)) →
        (BypassScope s t).inst_ptr = max s.inst_ptr (s.genome.length - 1)) := by
  have e : BypassScope s t
      = { ExitScope s with
            inst_ptr := bypassLoop s.genome (t + 1) s.genome.length s.inst_ptr } := by
    simp only [BypassScope]
    rw [if_neg (by omega : ¬(CurScope s < t + 1))]
    rfl
  rw [e]
  refine ⟨rfl, rfl, rfl, rfl, rfl, rfl, ?_, ?_⟩
  · intro j h1 h2 h3 h4
    exact bypassLoop_stop s.genome (t + 1) s.genome.length s.inst_ptr j h1 h2 (by omega) h3 h4
  · intro h1
    exact bypassLoop_nostop s.genome (t + 1) s.genome.length s.inst_ptr (by omega) h1

/-- C4 witness: in `c4WitState` (basic scope of depth 2, one pending
backup for register 0, a depth-1 `Scope` instruction at position 2) a
bypass with target depth 0 pops exactly one frame, restores the backup,
and parks the pointer at 1, one before the stopping instruction. -/
theorem c4_bypass_amended_witness :
    (BypassScope c4WitState 0).scope_stack = [rootFrame]
    ∧ (BypassScope c4WitState 0).inst_ptr = 1
    ∧ (BypassScope c4WitState 0).regs 0 = 42 := by
  have h := c4_bypass_amended c4WitState 0 (by decide)
  refine ⟨?_, ?_, ?_⟩
  · rw [h.1]; decide
  · refine h.2.2.2.2.2.2.1 2 (by decide) (by decide) (by decide) ?_
    intro k hk1 hk2 hstop
    have hk : k = 1 := by omega
    subst hk
    exact hstop.1 (by decide)
  · rw [h.2.1]
    with_unfolding_all rfl

/-- C3.  When `UpdateScope` is asked for a depth not strictly deeper than
the current frame and that frame is `LOOP`-kind, it moves the pointer to
the frame's `start_pos`, exits the frame (restoring its backups), then
dispatches the instruction now under the pointer, and reports `false` so
the calling handler executes no scope body itself. -/
theorem c3_loop_reentry (fuel : Nat) (s : CPUState) (a : Nat) (ty : ScopeType)
    (h1 : a + 1 ≤ CurScope s) (h2 : CurScopeType s = ScopeType.LOOP) :
    UpdateScope (fuel + 1) s a ty
      = (ProcessInst fuel
          (ExitScope { s with inst_ptr := (s.scope_stack.headD rootFrame).start_pos })
          (s.genome.getD (s.scope_stack.headD rootFrame).start_pos defaultInst)
        , false) := by
  have e : UpdateScope (fuel + 1) s a ty = updateScopeBody (engine fuel) s a ty := rfl
  rw [e]
  simp only [updateScopeBody]
  rw [if_neg (by omega : ¬(CurScope s < a + 1)), if_pos h2]
  rfl

/-- C3 witness: the loop-back from the scope-closing instruction of the
countdown program, at loop depth 1 with requested depth 1. -/
theorem c3_loop_reentry_witness :
    UpdateScope 8 c3WitState 0 ScopeType.BASIC
      = (ProcessInst 7
          (ExitScope { c3WitState with inst_ptr := (c3WitState.scope_stack.headD rootFrame).start_pos })
          (c3WitState.genome.getD (c3WitState.scope_stack.headD rootFrame).start_pos defaultInst)
        , false) :=
  c3_loop_reentry 7 c3WitState 0 ScopeType.BASIC (by decide) (by decide)

/-- Unfolding the restore loop one matching entry at a time. -/
theorem restoreScope_cons_pos (b : RegBackup) (rest : List RegBackup) (g : Nat → ℚ)
    (cur : Nat) (hb : b.scope = cur) :
    restoreScope (b :: rest) g cur = restoreScope rest (updk g b.reg_id b.value) cur := by
  rw [restoreScope, if_pos hb]

/-- C2.  Pushing a backup of register `r` in the current scope (the
`ScopeReg` handler), mutating `r` arbitrarily, and exiting the scope
restores the value `r` held at push time — provided no earlier backup of
the same register is pending in this scope.  With two backups of `r`
pushed in one scope (an intermediate mutation between them), restores
happen in reverse push order, so the *first* pushed value — the value
before the scope touched `r` — is what remains after the exit. -/
theorem c2_backup_roundtrip (s : CPUState) (r : Nat) (w1 w2 : ℚ)
    (hclean : ∀ b ∈ s.reg_stack, b.scope = CurScope s → b.reg_id ≠ r) :
    (ExitScope { Inst_ScopeReg s ⟨37, r, 0, 0⟩ with
        regs := updk (Inst_ScopeReg s ⟨37, r, 0, 0⟩).regs r w1 }).regs r = s.regs r
    ∧ (ExitScope
        { Inst_ScopeReg
            { Inst_ScopeReg s ⟨37, r, 0, 0⟩ with
                regs := updk (Inst_ScopeReg s ⟨37, r, 0, 0⟩).regs r w1 } ⟨37, r, 0, 0⟩ with
            regs := updk (updk (Inst_ScopeReg s ⟨37, r, 0, 0⟩).regs r w1) r w2 }).regs r
        = s.regs r := by
  constructor
  · have hA :
        (ExitScope { Inst_ScopeReg s ⟨37, r, 0, 0⟩ with
            regs := updk (Inst_ScopeReg s ⟨37, r, 0, 0⟩).regs r w1 }).regs
          = (restoreScope (⟨CurScope s, r, s.regs r⟩ :: s.reg_stack)
              (updk s.regs r w1) (CurScope s)).2 := rfl
    rw [hA, restoreScope_cons_pos _ _ _ _ rfl,
        restoreScope_regs_ne (CurScope s) r s.reg_stack _ hclean]
    exact updk_same _ r _
  · have hB :
        (ExitScope
          { Inst_ScopeReg
              { Inst_ScopeReg s ⟨37, r, 0, 0⟩ with
                  regs := updk (Inst_ScopeReg s ⟨37, r, 0, 0⟩).regs r w1 } ⟨37, r, 0, 0⟩ with
              regs := updk (updk (Inst_ScopeReg s ⟨37, r, 0, 0⟩).regs r w1) r w2 }).regs
          = (restoreScope
              (⟨CurScope s, r, updk s.regs r w1 r⟩ :: ⟨CurScope s, r, s.regs r⟩ :: s.reg_stack)
              (updk (updk s.regs r w1) r w2) (CurScope s)).2 := rfl
    rw [hB, restoreScope_cons_pos _ _ _ _ rfl, restoreScope_cons_pos _ _ _ _ rfl,
        restoreScope_regs_ne (CurScope s) r s.reg_stack _ hclean]
    exact updk_same _ r _

/-- C2 witness: on a fresh CPU (empty backup stack) register 3 returns to
its hardware-reset value after both the single and the double
push-mutate-exit sequences. -/
theorem c2_backup_roundtrip_witness :
    (ExitScope { Inst_ScopeReg (initState []) ⟨37, 3, 0, 0⟩ with
        regs := updk (Inst_ScopeReg (initState []) ⟨37, 3, 0, 0⟩).regs 3 99 }).regs 3
      = (initState []).regs 3
    ∧ (ExitScope
        { Inst_ScopeReg
            { Inst_ScopeReg (initState []) ⟨37, 3, 0, 0⟩ with
                regs := updk (Inst_ScopeReg (initState []) ⟨37, 3, 0, 0⟩).regs 3 99 } ⟨37, 3, 0, 0⟩ with
            regs := updk (updk (Inst_ScopeReg (initState []) ⟨37, 3, 0, 0⟩).regs 3 99) 3 55 }).regs 3
        = (initState []).regs 3 :=
  c2_backup_roundtrip (initState []) 3 99 55 (by
    intro b hb
    rw [show (initState []).reg_stack = [] from rfl] at hb
    simp at hb)

/-- Forcibly exiting `n` scopes touches neither genome, pointer nor call
stack, drops `n` frames, and keeps the total pending restore intact. -/
theorem exitNScopes_spec (n : Nat) :
    ∀ s : CPUState,
      (exitNScopes n s).genome = s.genome
      ∧ (exitNScopes n s).inst_ptr = s.inst_ptr
      ∧ (exitNScopes n s).call_stack = s.call_stack
      ∧ (exitNScopes n s).scope_stack = s.scope_stack.drop n
      ∧ restoreAll (exitNScopes n s).reg_stack (exitNScopes n s).regs
          = restoreAll s.reg_stack s.regs := by
  induction n with
  | zero => intro s; exact ⟨rfl, rfl, rfl, rfl, rfl⟩
  | succ n ih =>
    intro s
    have h := ih (ExitScope s)
    refine ⟨h.1, h.2.1, h.2.2.1, ?_, ?_⟩
    · show (exitNScopes n (ExitScope s)).scope_stack = _
      rw [h.2.2.2.1]
      rw [show (ExitScope s).scope_stack = s.scope_stack.tail from rfl]
      rw [← List.drop_one, List.drop_drop, Nat.add_comm]
    · show restoreAll (exitNScopes n (ExitScope s)).reg_stack
          (exitNScopes n (ExitScope s)).regs = _
      rw [h.2.2.2.2]
      exact restoreAll_restoreScope (CurScope s) s.reg_stack s.regs

/-- Dropping all but one element of a non-empty list leaves its last
element. -/
theorem drop_pred_getLastD {α : Type} :
    ∀ (l : List α) (d : α), l ≠ [] → l.drop (l.length - 1) = [l.getLastD d] := by
  intro l
  induction l with
  | nil => intro d h; exact absurd rfl h
  | cons a t ih =>
    intro d h
    cases t with
    | nil => rfl
    | cons b u =>
      have e1 : (a :: b :: u).length - 1 = (b :: u).length - 1 + 1 := by
        simp [List.length]
      rw [e1, List.drop_succ_cons]
      exact ih a (by simp)

/-- `ResetIP` zeroes the pointer, clears the backup and call stacks,
leaves only the bottom scope frame, restores every pending backup (most
recent first, so the earliest-pushed value wins per register), and keeps
the genome. -/
theorem ResetIP_spec (s : CPUState) (hne : s.scope_stack ≠ []) :
    (ResetIP s).genome = s.genome
    ∧ (ResetIP s).inst_ptr = 0
    ∧ (ResetIP s).call_stack = []
    ∧ (ResetIP s).reg_stack = []
    ∧ (ResetIP s).scope_stack = [s.scope_stack.getLastD defaultScopeInfo]
    ∧ (ResetIP s).regs = restoreAll s.reg_stack s.regs := by
  have h := exitNScopes_spec (s.scope_stack.length - 1) { s with inst_ptr := 0 }
  refine ⟨h.1, h.2.1, rfl, rfl, ?_, ?_⟩
  · show (exitNScopes (s.scope_stack.length - 1) { s with inst_ptr := 0 }).scope_stack = _
    rw [h.2.2.2.1]
    exact drop_pred_getLastD s.scope_stack defaultScopeInfo hne
  · show restoreAll (exitNScopes (s.scope_stack.length - 1) { s with inst_ptr := 0 }).reg_stack
        (exitNScopes (s.scope_stack.length - 1) { s with inst_ptr := 0 }).regs = _
    exact h.2.2.2.2

/-- C5.  A `SingleProcess` call with the pointer at or past genome end
first performs the full reset: the scope stack returns to the root frame
alone, the backup stack empties with every pending backup restored into
the registers, the call stack empties, and the pointer becomes 0; only
then is the instruction at position 0 dispatched (and the pointer
advanced). -/
theorem c5_past_end_resets (fuel : Nat) (s : CPUState)
    (hlen : s.genome.length ≤ s.inst_ptr)
    (hne : s.scope_stack ≠ [])
    (hroot : s.scope_stack.getLastD defaultScopeInfo = rootFrame) :
    (ResetIP s).scope_stack = [rootFrame]
    ∧ (ResetIP s).reg_stack = []
    ∧ (ResetIP s).call_stack = []
    ∧ (ResetIP s).inst_ptr = 0
    ∧ (ResetIP s).regs = restoreAll s.reg_stack s.regs
    ∧ SingleProcess fuel s
        = (fun t => { t with inst_ptr := t.inst_ptr + 1 })
            (ProcessInst fuel (ResetIP s) (s.genome.getD 0 defaultInst)) := by
  have hr := ResetIP_spec s hne
  refine ⟨?_, hr.2.2.2.1, hr.2.2.1, hr.2.1, hr.2.2.2.2.2, ?_⟩
  · rw [hr.2.2.2.2.1, hroot]
  · simp only [SingleProcess]
    rw [if_pos hlen, hr.1, hr.2.1]

/-- C5 witness: `c5WitState` has its pointer (5) past its 1-instruction
genome, an open depth-2 scope with a pending backup of register 3
(saved value 99) and a stale call-stack entry; the reset restores
register 3 and collapses everything before dispatching instruction 0. -/
theorem c5_past_end_resets_witness :
    ((ResetIP c5WitState).scope_stack = [rootFrame]
      ∧ (ResetIP c5WitState).reg_stack = []
      ∧ (ResetIP c5WitState).call_stack = []
      ∧ (ResetIP c5WitState).inst_ptr = 0
      ∧ (ResetIP c5WitState).regs = restoreAll c5WitState.reg_stack c5WitState.regs
      ∧ SingleProcess 8 c5WitState
          = (fun t => { t with inst_ptr := t.inst_ptr + 1 })
              (ProcessInst 8 (ResetIP c5WitState) (c5WitState.genome.getD 0 defaultInst)))
    ∧ (ResetIP c5WitState).regs 3 = 99 := by
  constructor
  · exact c5_past_end_resets 8 c5WitState (by decide) (by decide) (by decide)
  · with_unfolding_all rfl

/-- One step on the loop body: the `Inc` bumps register 1 and moves the
pointer onto the scope-closing instruction. -/
theorem cd_step_mid (g : Nat → ℚ) :
    SingleProcess 8 (cdMid g) = cdBody (updk g 1 (g 1 + 1)) := rfl

/-- One step from the countdown instruction with a zero guard: the loop
frame is pushed, the failed test bypasses the body, and the pointer ends
on the instruction after the loop. -/
theorem cd_step_start_pos (g : Nat → ℚ) (h : g 0 = 0) :
    SingleProcess 8 (cdStart g) = cdDone g := by
  have e : SingleProcess 8 (cdStart g)
      = (fun t => { t with inst_ptr := t.inst_ptr + 1 })
          (if g 0 = 0 then BypassScope (cdPush g) 0
           else { cdPush g with regs := updk g 0 (g 0 - 1) }) := rfl
  rw [e, if_pos h]
  rfl

/-- One step from the countdown instruction with a non-zero guard: the
loop frame is pushed, the guard is decremented, and the pointer moves to
the body. -/
theorem cd_step_start_neg (g : Nat → ℚ) (h : g 0 ≠ 0) :
    SingleProcess 8 (cdStart g) = cdMid (updk g 0 (g 0 - 1)) := by
  have e : SingleProcess 8 (cdStart g)
      = (fun t => { t with inst_ptr := t.inst_ptr + 1 })
          (if g 0 = 0 then BypassScope (cdPush g) 0
           else { cdPush g with regs := updk g 0 (g 0 - 1) }) := rfl
  rw [e, if_neg h]
  rfl

/-- One step from the scope-closing instruction inside the loop, zero
guard: the loop-back re-dispatches the countdown, whose failed test ends
the loop. -/
theorem cd_step_body_pos (g : Nat → ℚ) (h : g 0 = 0) :
    SingleProcess 8 (cdBody g) = cdDone g := by
  have e : SingleProcess 8 (cdBody g)
      = (fun t => { t with inst_ptr := t.inst_ptr + 1 })
          (if g 0 = 0 then BypassScope (cdPush g) 0
           else { cdPush g with regs := updk g 0 (g 0 - 1) }) := rfl
  rw [e, if_pos h]
  rfl

/-- One step from the scope-closing instruction inside the loop,
non-zero guard: the loop-back re-dispatches the countdown, which
re-enters the loop and decrements the guard. -/
theorem cd_step_body_neg (g : Nat → ℚ) (h : g 0 ≠ 0) :
    SingleProcess 8 (cdBody g) = cdMid (updk g 0 (g 0 - 1)) := by
  have e : SingleProcess 8 (cdBody g)
      = (fun t => { t with inst_ptr := t.inst_ptr + 1 })
          (if g 0 = 0 then BypassScope (cdPush g) 0
           else { cdPush g with regs := updk g 0 (g 0 - 1) }) := rfl
  rw [e, if_neg h]
  rfl

/-- From inside the countdown loop with `k` passes left on the guard,
`2k + 2` steps finish the loop: the body's register gains `k + 1` (the
in-flight pass plus `k` more), the guard ends at 0, and control stands
on the instruction after the loop with only the root frame live. -/
theorem cd_loop (k : ℕ) :
    ∀ g : Nat → ℚ, g 0 = (k : ℚ) →
      runSteps 8 (2 * k + 2) (cdMid g)
        = cdDone (fun j => if j = 0 then 0 else if j = 1 then g 1 + ((k : ℚ) + 1) else g j) := by
  induction k with
  | zero =>
    intro g hg
    have e2 : runSteps 8 (2 * 0 + 2) (cdMid g)
        = SingleProcess 8 (SingleProcess 8 (cdMid g)) := rfl
    rw [e2, cd_step_mid, cd_step_body_pos _ (by
      rw [updk_ne g 1 0 _ (by decide), hg, Nat.cast_zero])]
    refine congrArg cdDone (funext fun j => ?_)
    by_cases h0 : j = 0
    · subst h0
      rw [updk_ne g 1 0 _ (by decide), hg]
      norm_num
    · by_cases h1 : j = 1
      · subst h1
        rw [updk_same]
        norm_num
      · rw [updk_ne g 1 j _ h1]
        simp [h0, h1]
  | succ n ih =>
    intro g hg
    have e2 : runSteps 8 (2 * (n + 1) + 2) (cdMid g)
        = runSteps 8 (2 * n + 2) (SingleProcess 8 (SingleProcess 8 (cdMid g))) := by
      rw [show 2 * (n + 1) + 2 = (2 * n + 2) + 2 from by ring]
      rfl
    rw [e2, cd_step_mid, cd_step_body_neg _ (by
      rw [updk_ne g 1 0 _ (by decide), hg]
      exact_mod_cast Nat.succ_ne_zero n)]
    rw [ih _ (by
      rw [updk_same, updk_ne g 1 0 _ (by decide), hg]
      push_cast
      ring)]
    refine congrArg cdDone (funext fun j => ?_)
    by_cases h0 : j = 0
    · subst h0; norm_num
    · by_cases h1 : j = 1
      · subst h1
        norm_num
        rw [updk_ne _ 0 1 _ (by decide), updk_same]
        ring
      · simp [h0, h1, updk]

/-- C6.  Starting the countdown program with the guard register holding
any `V : ℕ` (other registers at hardware-reset defaults), `2V + 1` steps
run the loop body exactly `V` times — register 1 goes from its reset
value 1 to `1 + V` — the guard ends at 0, the loop frame is gone, and
control stands on the instruction after the loop (position 2), which has
not executed.  `V = 0` gives zero passes. -/
theorem c6_countdown_runs_exactly (V : ℕ) :
    (runSteps 8 (2 * V + 1) (cdInit V)).inst_ptr = 2
    ∧ (runSteps 8 (2 * V + 1) (cdInit V)).scope_stack = [rootFrame]
    ∧ (runSteps 8 (2 * V + 1) (cdInit V)).regs 1 = 1 + (V : ℚ)
    ∧ (runSteps 8 (2 * V + 1) (cdInit V)).regs 0 = 0
    ∧ (runSteps 8 (2 * V + 1) (cdInit V)).reg_stack = []
    ∧ (runSteps 8 (2 * V + 1) (cdInit V)).call_stack = [] := by
  cases V with
  | zero =>
    have e1 : runSteps 8 (2 * 0 + 1) (cdInit 0)
        = SingleProcess 8 (cdStart (updk (fun i => (i : ℚ)) 0 ((0 : ℕ) : ℚ))) := rfl
    rw [e1, cd_step_start_pos _ (by rw [updk_same]; norm_num)]
    refine ⟨rfl, rfl, ?_, ?_, rfl, rfl⟩
    · simp only [cdDone, updk]
      norm_num
    · simp only [cdDone, updk]
      norm_num
  | succ W =>
    have e1 : runSteps 8 (2 * (W + 1) + 1) (cdInit (W + 1))
        = runSteps 8 (2 * W + 2)
            (SingleProcess 8 (cdStart (updk (fun i => (i : ℚ)) 0 ((W + 1 : ℕ) : ℚ)))) := by
      rw [show 2 * (W + 1) + 1 = (2 * W + 2) + 1 from by ring]
      rfl
    rw [e1, cd_step_start_neg _ (by
      rw [updk_same]
      exact_mod_cast Nat.succ_ne_zero W)]
    rw [cd_loop W _ (by
      rw [updk_same, updk_same]
      push_cast
      ring)]
    refine ⟨rfl, rfl, ?_, ?_, rfl, rfl⟩
    · simp only [cdDone, updk]
      norm_num
    · simp only [cdDone, updk]
      norm_num

/-- C8 (amended).  `Call` is a complete no-op — the whole state, error
counter included, is returned unchanged — when the slot's recorded entry
is out of genome range (the `(size_t)` cast sends the unset `-1` far out
of range) or the instruction there does not open a `FUNCTION`-kind
scope.  When the entry is valid, the handler re-enters the function's
scope as `FUNCTION`-kind: if that re-entry reports success it pushes
`current_pointer + 1` on the call stack and sets the pointer to
`entry_address + 1`; if the re-entry reports failure (the call site was
itself closing a loop or function scope) the handler returns the
re-entry's state as is — nothing is pushed and no jump happens. -/
theorem c8_call_amended (fuel : Nat) (s : CPUState) (a0 a1 a2 : Nat) :
    ((s.genome.length ≤ toSizeT (s.fun_starts a0)
        ∨ scopeTypeOf (s.genome.getD (toSizeT (s.fun_starts a0)) defaultInst).id
            ≠ ScopeType.FUNCTION) →
      ProcessInst (fuel + 1) s ⟨18, a0, a1, a2⟩ = s)
    ∧ (∀ s1 : CPUState,
        ¬(s.genome.length ≤ toSizeT (s.fun_starts a0)
            ∨ scopeTypeOf (s.genome.getD (toSizeT (s.fun_starts a0)) defaultInst).id
                ≠ ScopeType.FUNCTION) →
        UpdateScope fuel s (s.genome.getD (toSizeT (s.fun_starts a0)) defaultInst).arg1
            ScopeType.FUNCTION = (s1, true) →
        ProcessInst (fuel + 1) s ⟨18, a0, a1, a2⟩
          = { s1 with call_stack := (s1.inst_ptr + 1) :: s1.call_stack
                    , inst_ptr := toSizeT (s.fun_starts a0) + 1 })
    ∧ (∀ s1 : CPUState,
        ¬(s.genome.length ≤ toSizeT (s.fun_starts a0)
            ∨ scopeTypeOf (s.genome.getD (toSizeT (s.fun_starts a0)) defaultInst).id
                ≠ ScopeType.FUNCTION) →
        UpdateScope fuel s (s.genome.getD (toSizeT (s.fun_starts a0)) defaultInst).arg1
            ScopeType.FUNCTION = (s1, false) →
        ProcessInst (fuel + 1) s ⟨18, a0, a1, a2⟩ = s1) := by
  have e : ProcessInst (fuel + 1) s ⟨18, a0, a1, a2⟩
      = Inst_Call (engine fuel) s ⟨18, a0, a1, a2⟩ := rfl
  have eu : (engine fuel).uscope = UpdateScope fuel := rfl
  refine ⟨?_, ?_, ?_⟩
  · intro hbad
    rw [e]
    simp only [Inst_Call]
    rw [if_pos hbad]
  · intro s1 hbad hup
    rw [e]
    simp only [Inst_Call]
    rw [if_neg hbad, eu, hup]
  · intro s1 hbad hup
    rw [e]
    simp only [Inst_Call]
    rw [if_neg hbad, eu, hup]

/-- C8 witness: on a fresh CPU with `c8Genome` the slot is unset
(`fun_starts[0] = -1`, cast far out of range) and the call leaves the
state untouched; in `c8GoodState` the entry is valid and the re-entry
succeeds, so the return position 4 is pushed and the pointer jumps to
`entry + 1 = 1`. -/
theorem c8_call_amended_witness :
    ProcessInst 65 (initState c8Genome) ⟨18, 0, 0, 0⟩ = initState c8Genome
    ∧ ProcessInst 65 c8GoodState ⟨18, 0, 0, 0⟩
        = { c8GoodState with
              scope_stack := [⟨2, ScopeType.FUNCTION, 3⟩, ⟨1, ScopeType.BASIC, 2⟩, rootFrame]
            , call_stack := [4]
            , inst_ptr := 1 } :=
  ⟨(c8_call_amended 64 (initState c8Genome) 0 0 0).1 (by decide),
   (c8_call_amended 64 c8GoodState 0 0 0).2.1
     { c8GoodState with scope_stack := ⟨2, ScopeType.FUNCTION, 3⟩ :: c8GoodState.scope_stack }
     (by decide) rfl⟩

end AvidaGP
